import Mathlib

/-!
Verification of the user-synchronization reconciliation scripts.

The repository consists of five near-identical Python entry points
(first.py, second.py, third.py, six.py, seven.py).  Each one fetches the
members of one Azure AD group (lower-casing the extracted account names),
fetches the PostgreSQL account names (dropping the fixed DEFAULT_USERS
exclusion set, and in third.py / six.py / seven.py additionally stripping
the first six characters of any name starting with the literal prefix
given by the string constant used in line 118), sorts the database names,
and classifies each database account as a valid user or a deletion
candidate by exact membership in the directory set.

Python strings are modelled as Lean strings, with the Python operations
defined on the underlying character data: this matches Python semantics,
where a string is a sequence of code points and comparison, slicing and
lower-casing are per-code-point operations.
-/

/-- Python str.lower, applied code point by code point. -/
def pyLower (s : String) : String := ⟨s.data.map Char.toLower⟩

/-- Python str.startswith: the candidate is a literal prefix of the character data. -/
def pyStartsWith (s pre : String) : Bool := pre.data.isPrefixOf s.data

/-- Python slicing s[n:]: drop the first n code points. -/
def pySliceFrom (s : String) (n : Nat) : String := ⟨s.data.drop n⟩

/-- Boolean code-point lexicographic comparison of character data, the order
Python uses when sorting strings. -/
def charListLe : List Char → List Char → Bool
  | [], _ => true
  | _ :: _, [] => false
  | a :: as, b :: bs => if a < b then true else if b < a then false else charListLe as bs

/-- Code-point lexicographic order on strings, as used by Python sorted. -/
def strLe (a b : String) : Prop := charListLe a.data b.data = true

instance : DecidableRel strLe := fun a b => by
  unfold strLe; infer_instance

theorem charListLe_total (as bs : List Char) :
    charListLe as bs = true ∨ charListLe bs as = true := by
  induction as generalizing bs with
  | nil => left; rfl
  | cons a as ih =>
    cases bs with
    | nil => right; rfl
    | cons b bs =>
      rcases lt_trichotomy a b with h | h | h
      · left; simp [charListLe, h]
      · subst h
        rcases ih bs with h' | h' <;> [left; right] <;> simp [charListLe, h', lt_irrefl]
      · right; simp [charListLe, h]

theorem charListLe_trans {as bs cs : List Char}
    (h1 : charListLe as bs = true) (h2 : charListLe bs cs = true) :
    charListLe as cs = true := by
  induction as generalizing bs cs with
  | nil => rfl
  | cons a as ih =>
    cases bs with
    | nil => simp [charListLe] at h1
    | cons b bs =>
      cases cs with
      | nil => simp [charListLe] at h2
      | cons c cs =>
        rcases lt_trichotomy a b with hab | hab | hab
        · rcases lt_trichotomy b c with hbc | hbc | hbc
          · simp [charListLe, lt_trans hab hbc]
          · subst hbc; simp [charListLe, hab]
          · exfalso; simp [charListLe, not_lt_of_gt hbc, hbc] at h2
        · subst hab
          simp only [charListLe, lt_irrefl, if_false] at h1
          rcases lt_trichotomy a c with hac | hac | hac
          · simp [charListLe, hac]
          · subst hac
            simp only [charListLe, lt_irrefl, if_false] at h2 ⊢
            exact ih h1 h2
          · exfalso; simp [charListLe, not_lt_of_gt hac, hac] at h2
        · exfalso; simp [charListLe, not_lt_of_gt hab, hab] at h1

instance : IsTotal String strLe := ⟨fun a b => charListLe_total a.data b.data⟩

instance : IsTrans String strLe := ⟨fun _ _ _ => charListLe_trans⟩

/-- Python builtin sorted on a list of strings: a stable ascending sort by
code-point lexicographic order, modelled by insertion sort (which is stable). -/
def pySorted (l : List String) : List String := List.insertionSort strLe l

/-- The fixed exclusion set of system accounts, first.py line 34
(identical in the other four scripts). -/
def DEFAULT_USERS : List String := ["postgres", "rdsadmin"]

/-- Directory fetcher, first.py get_group_members (lines 90-114): a fetched
member record is modelled by its optional onPremisesSamAccountName
attribute; the function keeps exactly the records exposing the attribute,
lower-cases each extracted name, and collects them into a set (modelled as
a deduplicated list). -/
def get_group_members (members : List (Option String)) : List String :=
  ((members.filterMap id).map pyLower).dedup

/-- A database-level failure (connection or query error). -/
structure DbError where
  msg : String
deriving DecidableEq

/-- Database fetcher of first.py / second.py (lines 116-131): on a database
error the function returns the empty list; on success it keeps the fetched
rows outside DEFAULT_USERS, in the order the query returned them. -/
def fetch_postgres_users_first (res : Except DbError (List String)) : List String :=
  match res with
  | Except.error _ => []
  | Except.ok rows => rows.filter (fun u => !DEFAULT_USERS.contains u)

/-- The per-row transform of seven.py / six.py / third.py line 118:
user[0][6:] if user[0].startswith(the four-character literal) else user[0]. -/
def stripTest (u : String) : String :=
  if pyStartsWith u "test" then pySliceFrom u 6 else u

/-- Database fetcher of seven.py / six.py / third.py (lines 111-126): like
the first.py variant but with the prefix-strip transform applied to each
surviving row, after the exclusion filter. -/
def fetch_postgres_users_seven (res : Except DbError (List String)) : List String :=
  match res with
  | Except.error _ => []
  | Except.ok rows => (rows.filter (fun u => !DEFAULT_USERS.contains u)).map stripTest

/-- One row of the comparison table built in main (first.py lines 578-583):
identifier, membership flag, the constant RDS flag, and the status text. -/
structure ReconRow where
  ntid : String
  in_azure_group : String
  in_rds : String
  status : String
deriving DecidableEq

/-- The row built for one database user, first.py lines 578-583. -/
def mkRow (azure_users : List String) (user : String) : ReconRow :=
  { ntid := user
    in_azure_group := if azure_users.contains user then "Yes" else "No"
    in_rds := "Yes"
    status := if azure_users.contains user then "Valid user" else "Needs to be deleted" }

/-- The comparison table, first.py lines 576-583 (seven.py lines 354-362):
one row per database user, iterated in Python sorted order. -/
def table_data (azure_users postgres_users : List String) : List ReconRow :=
  (pySorted postgres_users).map (mkRow azure_users)

/-- first.py line 589: the database users found in the directory set. -/
def valid_users (azure_users postgres_users : List String) : List String :=
  postgres_users.filter (fun u => azure_users.contains u)

/-- first.py line 590: the database users absent from the directory set. -/
def users_to_delete (azure_users postgres_users : List String) : List String :=
  postgres_users.filter (fun u => !azure_users.contains u)

/-- The scalar facts of the summary block, first.py lines 592-598. -/
structure SummaryFacts where
  total_rds : Nat
  total_azure : Nat
  valid_count : Nat
  delete_count : Nat
deriving DecidableEq

/-- Summary construction, first.py lines 592-598. -/
def summary_facts (azure_users postgres_users : List String) : SummaryFacts :=
  { total_rds := postgres_users.length
    total_azure := azure_users.length
    valid_count := (valid_users azure_users postgres_users).length
    delete_count := (users_to_delete azure_users postgres_users).length }

/-- first.py lines 554-557: the environment variables main requires. -/
def required_env_vars : List String :=
  ["DB_HOST", "DB_PORT", "DB_NAME", "DB_USER", "DB_PASSWORD",
   "AZURE_TENANT_ID", "AZURE_CLIENT_ID", "AZURE_CLIENT_SECRET"]

/-- Python truthiness of os.getenv(v): false when the variable is unset or
set to the empty string. -/
def envTruthy (env : String → Option String) (v : String) : Bool :=
  match env v with
  | none => false
  | some s => !(s == "")

/-- first.py line 558: the required variables that are absent. -/
def missing_vars (env : String → Option String) : List String :=
  required_env_vars.filter (fun v => !envTruthy env v)

/-- The two I/O steps of the pipeline whose occurrence the claims track. -/
inductive Effect where
  | directoryFetch
  | databaseFetch
deriving DecidableEq

/-- A directory-service failure (token, group lookup, or member fetch). -/
structure UpstreamError where
  msg : String
deriving DecidableEq

/-- The run-level error outcomes of main. -/
inductive RunError where
  | configError (missing : List String)
  | upstreamError (e : UpstreamError)
deriving DecidableEq

/-- The three outputs main hands to the renderers: the comparison table,
the summary facts, and the deletion candidates. -/
structure Report where
  table : List ReconRow
  summary : SummaryFacts
  to_delete : List String
deriving DecidableEq

/-- The observable outcome of one run of main: the report if one was
produced, the I/O steps that were attempted, and the error if any. -/
structure RunResult where
  report : Option Report
  effects : List Effect
  error : Option RunError
deriving DecidableEq

/-- The report built by main from the two fetched collections. -/
def mkReport (azure_users postgres_users : List String) : Report :=
  { table := table_data azure_users postgres_users
    summary := summary_facts azure_users postgres_users
    to_delete := users_to_delete azure_users postgres_users }

/-- first.py main (lines 549-626): the environment-variable check runs
first and raises before any fetch when a required variable is missing; the
directory fetch runs next and a directory failure aborts the run; then the
database fetch result (already coerced by fetch_postgres_users_first) feeds
the reconciliation and the report.  The outcomes of the two fetches are
supplied as oracle arguments. -/
def mainRun (env : String → Option String)
    (directoryRes : Except UpstreamError (List (Option String)))
    (dbRes : Except DbError (List String)) : RunResult :=
  if missing_vars env ≠ [] then
    { report := none
      effects := []
      error := some (RunError.configError (missing_vars env)) }
  else
    match directoryRes with
    | Except.error e =>
        { report := none
          effects := [Effect.directoryFetch]
          error := some (RunError.upstreamError e) }
    | Except.ok members =>
        let azure_users := get_group_members members
        let postgres_users := fetch_postgres_users_first dbRes
        { report := some (mkReport azure_users postgres_users)
          effects := [Effect.directoryFetch, Effect.databaseFetch]
          error := none }

/-! Helper lemmas shared by the claim theorems. -/

/-- The identifier column of the comparison table is exactly the sorted
database account sequence. -/
theorem map_ntid_table_data (A B : List String) :
    (table_data A B).map ReconRow.ntid = pySorted B := by
  simp only [table_data, List.map_map]
  have h : (ReconRow.ntid ∘ mkRow A) = id := funext fun _ => rfl
  rw [h, List.map_id]

/-- The status text of a row is the valid-user text exactly when the row
identifier is an exact member of the directory set. -/
theorem status_iff_mem (A : List String) (u : String) :
    ((mkRow A u).status = "Valid user" ↔ u ∈ A) := by
  cases hc : A.contains u
  · simp [mkRow, hc]
  · simp [mkRow, hc]

/-- Membership in the directory member set: exactly the lower-casings of
the attribute values of the records exposing the attribute. -/
theorem mem_get_group_members (members : List (Option String)) (x : String) :
    x ∈ get_group_members members ↔ ∃ s, some s ∈ members ∧ x = pyLower s := by
  simp [get_group_members]
  constructor
  · rintro ⟨s, hs, rfl⟩; exact ⟨s, hs, rfl⟩
  · rintro ⟨s, hs, rfl⟩; exact ⟨s, hs, rfl⟩

/-! Claim theorems. -/

/-- C1 (counterexample): with directory set A = ["alice"] and database
sequence B = ["Alice"], the account "Alice" is case-insensitively a member
of A (its lower-casing is literally in A), yet its row status is
"Needs to be deleted", refuting the claimed case-insensitive
classification. -/
theorem C1_counterexample :
    pyLower "Alice" ∈ (["alice"] : List String) ∧
    (table_data ["alice"] ["Alice"]).map ReconRow.status = ["Needs to be deleted"] :=
  ⟨by decide, by decide⟩

/-- C1 (amended): for every directory member set A and database account
sequence B, the reconciliation step produces exactly B.length rows, one per
database account (the identifier column is a permutation of B), in
ascending sorted order, and the status of a row is "Valid user" exactly when its
identifier is an exact, case-sensitive member of A. -/
theorem C1_reconcile_rows (A B : List String) :
    (table_data A B).length = B.length ∧
    ((table_data A B).map ReconRow.ntid).Perm B ∧
    List.Sorted strLe ((table_data A B).map ReconRow.ntid) ∧
    ∀ r ∈ table_data A B, (r.status = "Valid user" ↔ r.ntid ∈ A) := by
  refine ⟨?_, ?_, ?_, ?_⟩
  · simp [table_data, pySorted, List.length_insertionSort]
  · rw [map_ntid_table_data]; exact List.perm_insertionSort strLe B
  · rw [map_ntid_table_data]; exact List.sorted_insertionSort strLe B
  · intro r hr
    simp only [table_data, List.mem_map] at hr
    obtain ⟨u, _, rfl⟩ := hr
    exact status_iff_mem A u

/-- C1 witness: the amended theorem evaluated at the Scenario 1
inputs. -/
theorem C1_reconcile_rows_witness :
    (table_data ["alice", "bob"] ["alice", "carol"]).length = ["alice", "carol"].length ∧
    ((table_data ["alice", "bob"] ["alice", "carol"]).map ReconRow.ntid).Perm ["alice", "carol"] ∧
    List.Sorted strLe ((table_data ["alice", "bob"] ["alice", "carol"]).map ReconRow.ntid) ∧
    ∀ r ∈ table_data ["alice", "bob"] ["alice", "carol"],
      (r.status = "Valid user" ↔ r.ntid ∈ ["alice", "bob"]) :=
  C1_reconcile_rows ["alice", "bob"] ["alice", "carol"]

/-- C2 (counterexample): the directory fetcher lower-cases "Bob" to "bob",
but the database account "BOB", which differs from "Bob" only in case, is
compared without normalization and classified "Needs to be deleted". -/
theorem C2_counterexample :
    get_group_members [some "Bob"] = ["bob"] ∧
    pyLower "BOB" = pyLower "Bob" ∧
    (table_data (get_group_members [some "Bob"]) ["BOB"]).map ReconRow.status =
      ["Needs to be deleted"] :=
  ⟨by decide, by decide, by decide⟩

/-- C2 (amended): only the directory side is normalized: a database account
is classified "Valid user" exactly when its name, unmodified, equals the
lower-casing of the identifier attribute of some directory record; database
names are not lower-cased before the membership test. -/
theorem C2_exact_membership (members : List (Option String)) (B : List String) :
    ∀ r ∈ table_data (get_group_members members) B,
      (r.status = "Valid user" ↔ ∃ s, some s ∈ members ∧ r.ntid = pyLower s) := by
  intro r hr
  simp only [table_data, List.mem_map] at hr
  obtain ⟨u, _, rfl⟩ := hr
  rw [status_iff_mem]
  exact mem_get_group_members members u

/-- C2 witness: the amended theorem at one concrete record list and
database sequence, instantiated at the row built for "alice". -/
theorem C2_exact_membership_witness :
    ((mkRow (get_group_members [some "Alice"]) "alice").status = "Valid user" ↔
      ∃ s, some s ∈ [some "Alice"] ∧
        (mkRow (get_group_members [some "Alice"]) "alice").ntid = pyLower s) :=
  C2_exact_membership [some "Alice"] ["alice", "carol"]
    (mkRow (get_group_members [some "Alice"]) "alice") (by decide)

/-- C3 (counterexample): the raw name "testqapostgres" is not excluded, but
the prefix-strip transform maps it to "postgres", a member of the exclusion
set, so an excluded identifier appears in the sequence passed to
reconciliation. -/
theorem C3_counterexample :
    fetch_postgres_users_seven (Except.ok ["testqapostgres"]) = ["postgres"] ∧
    "postgres" ∈ DEFAULT_USERS :=
  ⟨by decide, by decide⟩

/-- C3 (amended): the exclusion filter acts on the raw fetched names: the
no-strip fetcher never outputs an excluded name, and every output of the
strip fetcher is the strip image of a raw name outside the exclusion set —
but, the strip being applied after the filter, its image can itself be an
excluded name. -/
theorem C3_exclusion_on_raw_names (rows : List String) :
    (∀ u ∈ fetch_postgres_users_first (Except.ok rows), u ∉ DEFAULT_USERS) ∧
    (∀ u ∈ fetch_postgres_users_seven (Except.ok rows),
       ∃ r ∈ rows, r ∉ DEFAULT_USERS ∧ u = stripTest r) := by
  constructor
  · intro u hu
    simp only [fetch_postgres_users_first, List.mem_filter] at hu
    simpa using hu.2
  · intro u hu
    simp only [fetch_postgres_users_seven, List.mem_map, List.mem_filter] at hu
    obtain ⟨r, ⟨hr, hrd⟩, rfl⟩ := hu
    exact ⟨r, hr, by simpa using hrd, rfl⟩

/-- C3 witness: the amended theorem at a concrete row list containing an
excluded raw name. -/
theorem C3_exclusion_on_raw_names_witness :
    (∀ u ∈ fetch_postgres_users_first (Except.ok ["postgres", "alice"]), u ∉ DEFAULT_USERS) ∧
    (∀ u ∈ fetch_postgres_users_seven (Except.ok ["postgres", "alice"]),
       ∃ r ∈ ["postgres", "alice"], r ∉ DEFAULT_USERS ∧ u = stripTest r) :=
  C3_exclusion_on_raw_names ["postgres", "alice"]

/-- C4: a database-level failure makes both fetcher variants return the
empty sequence instead of an error; with the configuration complete the run
still reconciles and produces a report whose table is empty, whose total
database account count is 0, and whose deletion candidate set is empty. -/
theorem C4_db_error_degrades (env : String → Option String) (e : DbError)
    (members : List (Option String)) (h : missing_vars env = []) :
    fetch_postgres_users_first (Except.error e) = [] ∧
    fetch_postgres_users_seven (Except.error e) = [] ∧
    ∃ rep : Report,
      (mainRun env (Except.ok members) (Except.error e)).report = some rep ∧
      rep.table = [] ∧
      rep.summary.total_rds = 0 ∧
      rep.summary.delete_count = 0 ∧
      rep.to_delete = [] := by
  refine ⟨rfl, rfl,
    mkReport (get_group_members members) (fetch_postgres_users_first (Except.error e)),
    ?_, rfl, rfl, rfl, rfl⟩
  simp [mainRun, h]

/-- C4 witness: the theorem at a fully supplied environment, one directory
record, and a concrete database error. -/
theorem C4_db_error_degrades_witness :
    fetch_postgres_users_first (Except.error ⟨"connection refused"⟩) = [] ∧
    fetch_postgres_users_seven (Except.error ⟨"connection refused"⟩) = [] ∧
    ∃ rep : Report,
      (mainRun (fun _ => some "x") (Except.ok [some "Alice"])
          (Except.error ⟨"connection refused"⟩)).report = some rep ∧
      rep.table = [] ∧
      rep.summary.total_rds = 0 ∧
      rep.summary.delete_count = 0 ∧
      rep.to_delete = [] :=
  C4_db_error_degrades (fun _ => some "x") ⟨"connection refused"⟩ [some "Alice"] (by decide)

/-- C5 (counterexample): the raw rows ["b", "testxxa"] are in ascending
order and survive the exclusion filter, but the strip fetcher returns
["b", "a"], which is not sorted: the prefix-strip transform breaks the
ascending-order invariant. -/
theorem C5_counterexample :
    List.Sorted strLe ["b", "testxxa"] ∧
    fetch_postgres_users_seven (Except.ok ["b", "testxxa"]) = ["b", "a"] ∧
    ¬ List.Sorted strLe ["b", "a"] :=
  ⟨by decide, by decide, by decide⟩

/-- C5 (amended): when the raw rows come back in ascending order the
exclusion filter preserves that order, so the output of the no-strip fetcher is
sorted ascending; in the strip variants sortedness is guaranteed only
before the transform is applied. -/
theorem C5_sorted_before_strip (rows : List String) (h : List.Sorted strLe rows) :
    List.Sorted strLe (fetch_postgres_users_first (Except.ok rows)) ∧
    List.Sorted strLe (rows.filter (fun u => !DEFAULT_USERS.contains u)) := by
  have h2 : List.Sorted strLe (rows.filter (fun u => !DEFAULT_USERS.contains u)) :=
    h.sublist (List.filter_sublist _)
  exact ⟨h2, h2⟩

/-- C5 witness: the amended theorem at a concrete sorted row list. -/
theorem C5_sorted_before_strip_witness :
    List.Sorted strLe (fetch_postgres_users_first (Except.ok ["alice", "bob", "postgres"])) ∧
    List.Sorted strLe (["alice", "bob", "postgres"].filter (fun u => !DEFAULT_USERS.contains u)) :=
  C5_sorted_before_strip ["alice", "bob", "postgres"] (by decide)

/-- C6: the reconciliation step is a pure function of the membership of the
directory set and of the database sequence: re-running on the same inputs
is literally the same value, two directory lists answering membership
identically yield identical tables, deletion lists and valid lists, and the
row order is the sorted database sequence, independent of the directory
set enumeration order. -/
theorem C6_deterministic (A1 A2 B : List String)
    (h : ∀ a : String, A1.contains a = A2.contains a) :
    table_data A1 B = table_data A1 B ∧
    table_data A1 B = table_data A2 B ∧
    users_to_delete A1 B = users_to_delete A2 B ∧
    valid_users A1 B = valid_users A2 B ∧
    (table_data A1 B).map ReconRow.ntid = pySorted B := by
  refine ⟨rfl, ?_, ?_, ?_, map_ntid_table_data A1 B⟩
  · simp only [table_data]
    exact List.map_congr_left fun u _ => by unfold mkRow; rw [h u]
  · simp only [users_to_delete]
    exact List.filter_congr fun u _ => by rw [h u]
  · simp only [valid_users]
    exact List.filter_congr fun u _ => by rw [h u]

/-- C6 witness: the theorem at two enumerations of the same two-element
directory set. -/
theorem C6_deterministic_witness :
    table_data ["x", "y"] ["y", "z"] = table_data ["x", "y"] ["y", "z"] ∧
    table_data ["x", "y"] ["y", "z"] = table_data ["y", "x"] ["y", "z"] ∧
    users_to_delete ["x", "y"] ["y", "z"] = users_to_delete ["y", "x"] ["y", "z"] ∧
    valid_users ["x", "y"] ["y", "z"] = valid_users ["y", "x"] ["y", "z"] ∧
    (table_data ["x", "y"] ["y", "z"]).map ReconRow.ntid = pySorted ["y", "z"] :=
  C6_deterministic ["x", "y"] ["y", "x"] ["y", "z"] (fun a => by
    cases h1 : a == "x" <;> cases h2 : a == "y" <;>
      simp [List.contains, List.elem, h1, h2])

/-- C7: rows and deletion candidates are drawn exclusively from the
database sequence — every row identifier and every deletion candidate is a
member of it — so with an empty database sequence both the table and the
deletion list are empty whatever the directory set holds. -/
theorem C7_asymmetric (A B : List String) :
    (∀ r ∈ table_data A B, r.ntid ∈ B) ∧
    (∀ u ∈ users_to_delete A B, u ∈ B) ∧
    table_data A [] = [] ∧
    users_to_delete A [] = [] := by
  refine ⟨?_, ?_, rfl, rfl⟩
  · intro r hr
    simp only [table_data, pySorted, List.mem_map] at hr
    obtain ⟨u, hu, rfl⟩ := hr
    exact (List.mem_insertionSort strLe).1 hu
  · intro u hu
    exact (List.mem_filter.1 hu).1

/-- C7 witness: the theorem at the Scenario 3 inputs (directory
"eve", empty database sequence). -/
theorem C7_asymmetric_witness :
    (∀ r ∈ table_data ["eve"] [], r.ntid ∈ ([] : List String)) ∧
    (∀ u ∈ users_to_delete ["eve"] [], u ∈ ([] : List String)) ∧
    table_data ["eve"] [] = [] ∧
    users_to_delete ["eve"] [] = [] :=
  C7_asymmetric ["eve"] []

/-- C8: the directory member set is duplicate-free, its members are exactly
the lower-casings of the attribute values of the records exposing the
identifier attribute, and a record lacking the attribute is dropped
silently, leaving the result unchanged. -/
theorem C8_directory_set (members : List (Option String)) :
    (get_group_members members).Nodup ∧
    (∀ x : String, x ∈ get_group_members members ↔ ∃ s, some s ∈ members ∧ x = pyLower s) ∧
    get_group_members (none :: members) = get_group_members members :=
  ⟨List.nodup_dedup _, fun x => mem_get_group_members members x, rfl⟩

/-- C8 witness: the theorem at a record list with a duplicate (after
lower-casing) and a record lacking the attribute. -/
theorem C8_directory_set_witness :
    (get_group_members [some "Alice", none, some "ALICE"]).Nodup ∧
    (∀ x : String, x ∈ get_group_members [some "Alice", none, some "ALICE"] ↔
       ∃ s, some s ∈ [some "Alice", none, some "ALICE"] ∧ x = pyLower s) ∧
    get_group_members (none :: [some "Alice", none, some "ALICE"]) =
      get_group_members [some "Alice", none, some "ALICE"] :=
  C8_directory_set [some "Alice", none, some "ALICE"]

/-- C9: when some required database or directory variable is absent, the
run stops with the configuration error listing the missing variables, no
fetch effect occurs, and no report is produced. -/
theorem C9_config_abort (env : String → Option String)
    (directoryRes : Except UpstreamError (List (Option String)))
    (dbRes : Except DbError (List String))
    (v : String) (hv : v ∈ required_env_vars) (hf : envTruthy env v = false) :
    (mainRun env directoryRes dbRes).report = none ∧
    (mainRun env directoryRes dbRes).effects = [] ∧
    (mainRun env directoryRes dbRes).error =
      some (RunError.configError (missing_vars env)) := by
  have h : missing_vars env ≠ [] := by
    have hm : v ∈ missing_vars env := List.mem_filter.2 ⟨hv, by simp [hf]⟩
    exact List.ne_nil_of_mem hm
  simp [mainRun, h]

/-- C9 witness: the theorem at the empty environment, where DB_HOST is
missing. -/
theorem C9_config_abort_witness :
    (mainRun (fun _ => none) (Except.ok [some "Alice"]) (Except.ok ["alice"])).report = none ∧
    (mainRun (fun _ => none) (Except.ok [some "Alice"]) (Except.ok ["alice"])).effects = [] ∧
    (mainRun (fun _ => none) (Except.ok [some "Alice"]) (Except.ok ["alice"])).error =
      some (RunError.configError (missing_vars (fun _ => none))) :=
  C9_config_abort (fun _ => none) (Except.ok [some "Alice"]) (Except.ok ["alice"])
    "DB_HOST" (by decide) rfl

/-- C10: the transform drops six code points although the matched prefix
has four: a matching name loses exactly six characters; a matching name of
length at most six becomes the empty identifier; for "testab" the result is
"" while stripping only the matched four-character prefix would leave "ab";
and the fetcher therefore emits the empty identifier for such rows. -/
theorem C10_strip_six :
    (∀ u : String, pyStartsWith u "test" = true → (stripTest u).length = u.length - 6) ∧
    (∀ u : String, pyStartsWith u "test" = true → u.length ≤ 6 → stripTest u = "") ∧
    "testab".length = 6 ∧
    stripTest "testab" = "" ∧
    pySliceFrom "testab" 4 = "ab" ∧
    fetch_postgres_users_seven (Except.ok ["testab"]) = [""] := by
  refine ⟨?_, ?_, by decide, by decide, by decide, by decide⟩
  · intro u hu
    simp only [stripTest, hu, if_true]
    exact List.length_drop 6 u.data
  · intro u hu hlen
    simp only [stripTest, hu, if_true]
    have hd : u.data.drop 6 = [] := List.drop_eq_nil_of_le hlen
    simp only [pySliceFrom, hd]

/-- C10 witness: the six-character loss evaluated on a concrete matching
name of length eight. -/
theorem C10_strip_six_witness :
    pyStartsWith "testerxy" "test" = true ∧
    (stripTest "testerxy").length = "testerxy".length - 6 :=
  ⟨by decide, C10_strip_six.1 "testerxy" (by decide)⟩
